import Mathlib

/-!
# Verification of the Vulkan renderer core (src/similar/arch/vk)

Shallow embedding of the CPU-visible state and operations of the Vulkan
renderer: `vk_common.h` (data model), `vk_renderer.cpp` (draw emission),
`vk_init.cpp` (matrices, swapchain, frame lifecycle), `vk_texture.cpp`
(texture lifecycle).

Modelling conventions:
* `float` values are modelled as `ℚ` (exact arithmetic over the same
  formulas the source computes).
* Vulkan object handles (`VkPipeline`, `VkDescriptorSet`, ...) are modelled
  as `ℕ`, with `0` standing for `VK_NULL_HANDLE`; fresh handles are drawn
  from a counter in the state.
* GPU-side effects are modelled by what the CPU records: draw commands
  recorded into a frame's command buffer become a `DrawCmd` list, and each
  `memcpy` into the mapped vertex ring buffer is logged in `written`.
* External inputs (the result of `vkAcquireNextImageKHR`, the surface
  capabilities consulted by swapchain creation) are explicit parameters.
* Only the success path of GPU calls that the claims depend on is modelled;
  the failure branches of `vkCreate*` calls are outside the claims.
-/

namespace VkModel

/-- `UINT32_MAX`, the sentinel used by `VkSurfaceCapabilitiesKHR.currentExtent`. -/
def UINT32_MAX : ℕ := 4294967295

/-- `VK_MAX_FRAMES_IN_FLIGHT` (vk_common.h line 26). -/
def VK_MAX_FRAMES_IN_FLIGHT : ℕ := 2

/-- `VK_VERTEX_RING_SIZE` (vk_common.h line 29): 4MB per-frame vertex ring. -/
def VK_VERTEX_RING_SIZE : ℕ := 4 * 1024 * 1024

/-- `struct vk_vertex` (vk_common.h lines 40-44): 9 floats. -/
structure vk_vertex where
  x : ℚ := 0
  y : ℚ := 0
  z : ℚ := 0
  r : ℚ := 0
  g : ℚ := 0
  b : ℚ := 0
  a : ℚ := 0
  u : ℚ := 0
  v : ℚ := 0
deriving DecidableEq

instance : Inhabited vk_vertex := ⟨{}⟩

/-- `sizeof(vk_vertex)`: 9 × 4-byte floats = 36 bytes. -/
def sizeof_vk_vertex : ℕ := 36

/-- `enum vk_pipeline_id` (vk_common.h lines 47-55). -/
inductive vk_pipeline_id where
  | textured_3d
  | flat_3d
  | line_3d
  | textured_2d
  | flat_2d
  | line_2d
deriving DecidableEq

/-- `enum vk_blend_mode` (vk_common.h lines 58-63). -/
inductive vk_blend_mode where
  | normal
  | additive_a
  | additive_c
deriving DecidableEq

/-- One draw call as recorded into a command buffer by `vk_emit_draw`
(vk_renderer.cpp lines 112-147): the pipeline bound (variant and blend
mode), the descriptor set bound, the vertex-buffer binding (buffer handle
and byte offset), the vertex count of `vkCmdDraw`, and the push-constant
block (MVP matrix and alpha-test reference). -/
structure DrawCmd where
  pipeline : vk_pipeline_id
  blend : vk_blend_mode
  descriptor_set : ℕ
  vertex_buffer : ℕ
  vertex_offset : ℕ
  count : ℕ
  mvp : List ℚ
  alpha_ref : ℚ
deriving DecidableEq

/-- `struct vk_texture` (vk_common.h lines 66-76). -/
structure vk_texture where
  image : ℕ := 0
  allocation : ℕ := 0
  view : ℕ := 0
  sampler : ℕ := 0
  descriptor_set : ℕ := 0
  w : ℕ := 0
  h : ℕ := 0
  tw : ℕ := 0
  th : ℕ := 0
  u_scale : ℚ := 1
  v_scale : ℚ := 1
  valid : Bool := false
deriving DecidableEq

/-- `struct vk_frame_data` (vk_common.h lines 79-90), extended with the two
logs that make the GPU-visible effects of recording observable:
`written` logs each `memcpy` into the mapped ring buffer (byte offset and
vertices copied), `cmd_draws` is the sequence of draws recorded into this
frame's command buffer (cleared by `vkResetCommandBuffer`). -/
structure vk_frame_data where
  cmd : ℕ := 0
  image_available : ℕ := 0
  render_finished : ℕ := 0
  fence : ℕ := 0
  vertex_buffer : ℕ := 0
  vertex_allocation : ℕ := 0
  vertex_offset : ℕ := 0
  written : List (ℕ × List vk_vertex) := []
  cmd_draws : List DrawCmd := []
deriving DecidableEq

instance : Inhabited vk_frame_data := ⟨{}⟩

/-- `struct vk_state` (vk_common.h lines 93-167), the global `g_vk`.
The pipeline table `VkPipeline pipelines[VK_PIPE_COUNT][VK_BLEND_COUNT]`
is a list of rows (one row per pipeline variant, one entry per blend mode).
The fixed-size matrix save/restore stacks (`projection_stack`,
`modelview_stack`) are carried as depth counters only: no function in the
modelled sources reads or writes the stack arrays.
`next_handle` is the modelling device supplying fresh GPU handles and
`freed_descriptor_sets` logs descriptor sets released back to the pool
(`vkFreeDescriptorSets`). -/
structure vk_state where
  instance_h : ℕ := 0
  physical_device : ℕ := 0
  device : ℕ := 0
  graphics_queue : ℕ := 0
  queue_family : ℕ := 0
  allocator : ℕ := 0
  surface : ℕ := 0
  swapchain : ℕ := 0
  swapchain_format : ℕ := 0
  swapchain_extent : ℕ × ℕ := (0, 0)
  swapchain_images : List ℕ := []
  swapchain_views : List ℕ := []
  render_pass : ℕ := 0
  framebuffers : List ℕ := []
  depth_image : ℕ := 0
  depth_allocation : ℕ := 0
  depth_view : ℕ := 0
  command_pool : ℕ := 0
  descriptor_pool : ℕ := 0
  descriptor_set_layout : ℕ := 0
  pipeline_layout : ℕ := 0
  pipelines : List (List ℕ) := []
  frames : List vk_frame_data := [{}, {}]
  current_frame : ℕ := 0
  current_image_index : ℕ := 0
  white_texture : vk_texture := {}
  bound_texture : ℕ := 0
  in_render_pass : Bool := false
  frame_started : Bool := false
  init_complete : Bool := false
  screen_width : ℕ := 0
  screen_height : ℕ := 0
  current_blend : vk_blend_mode := vk_blend_mode.normal
  is_3d_mode : Bool := false
  projection_matrix : List ℚ := []
  modelview_matrix : List ℚ := []
  mvp_matrix : List ℚ := []
  projection_stack_depth : ℕ := 0
  modelview_stack_depth : ℕ := 0
  next_handle : ℕ := 1
  freed_descriptor_sets : List ℕ := []
deriving DecidableEq

/-- The frame record currently addressed by `g_vk.frames[g_vk.current_frame]`. -/
def frameOf (s : vk_state) : vk_frame_data :=
  s.frames.getD s.current_frame {}

/-! ## Matrix utilities (vk_init.cpp lines 24-70)

Matrices are 16-element column-major lists, entry `m[i]` at index `i`,
exactly as the source indexes its `float m[16]` arrays. -/

/-- `vk_mat4_identity` (vk_init.cpp lines 24-28). -/
def vk_mat4_identity : List ℚ :=
  [1, 0, 0, 0,
   0, 1, 0, 0,
   0, 0, 1, 0,
   0, 0, 0, 1]

/-- `vk_mat4_ortho` (vk_init.cpp lines 30-40). -/
def vk_mat4_ortho (l r b t n f : ℚ) : List ℚ :=
  [2 / (r - l), 0, 0, 0,
   0, 2 / (t - b), 0, 0,
   0, 0, -2 / (f - n), 0,
   -(r + l) / (r - l), -(t + b) / (t - b), -(f + n) / (f - n), 1]

/-- `vk_mat4_perspective` (vk_init.cpp lines 42-52). The source computes
`f = 1.0f / tanf(fovy_rad / 2.0f)`; the transcendental `tanf` evaluation has
no exact counterpart over `ℚ`, so its result is abstracted as the input
`tan_half_fovy` and `f := 1 / tan_half_fovy`. Every other entry follows the
source verbatim: `m[0] = f/aspect`, `m[5] = f`,
`m[10] = (far+near)/(near-far)`, `m[11] = -1`,
`m[14] = 2*far*near/(near-far)`, all other entries zero. -/
def vk_mat4_perspective (tan_half_fovy aspect near_val far_val : ℚ) : List ℚ :=
  let f := 1 / tan_half_fovy
  [f / aspect, 0, 0, 0,
   0, f, 0, 0,
   0, 0, (far_val + near_val) / (near_val - far_val), -1,
   0, 0, (2 * far_val * near_val) / (near_val - far_val), 0]

/-- `vk_mat4_multiply` (vk_init.cpp lines 54-65):
`tmp[j*4+i] = Σ_k a[k*4+i] * b[j*4+k]`. -/
def vk_mat4_multiply (a b : List ℚ) : List ℚ :=
  (List.range 16).map fun idx =>
    let i := idx % 4
    let j := idx / 4
    (List.range 4).foldl (fun acc k => acc + a.getD (k * 4 + i) 0 * b.getD (j * 4 + k) 0) 0

/-- `vk_update_mvp` (vk_init.cpp lines 67-70). -/
def vk_update_mvp (s : vk_state) : vk_state :=
  { s with mvp_matrix := vk_mat4_multiply s.projection_matrix s.modelview_matrix }

/-! ## Fan expansion and draw emission (vk_renderer.cpp) -/

/-- `fan_to_list` (vk_renderer.cpp lines 76-88): converts a triangle fan to
a triangle list `{0,1,2, 0,2,3, 0,3,4, ...}`. Returns the written vertex
list; the source's return value is its length. -/
def fan_to_list (fan : List vk_vertex) : List vk_vertex :=
  if fan.length < 3 then []
  else ((List.range (fan.length - 2)).map fun i =>
    [fan.getD 0 {}, fan.getD (i + 1) {}, fan.getD (i + 2) {}]).flatten

/-- The `DrawCmd` recorded by the success path of `vk_emit_draw`
(vk_renderer.cpp lines 112-147): pipeline `pipelines[pipe_id][current_blend]`,
push constants from `mvp_matrix` with `alpha_ref = 0.02`, descriptor set
`bound_texture` or the white fallback when null, vertex buffer bound at the
current cursor. -/
def emitCmd (s : vk_state) (pipe_id : vk_pipeline_id) (verts : List vk_vertex) : DrawCmd :=
  { pipeline := pipe_id
    blend := s.current_blend
    descriptor_set := if s.bound_texture ≠ 0 then s.bound_texture else s.white_texture.descriptor_set
    vertex_buffer := (frameOf s).vertex_buffer
    vertex_offset := (frameOf s).vertex_offset
    count := verts.length
    mvp := s.mvp_matrix
    alpha_ref := 1 / 50 }

/-- `vk_emit_draw` (vk_renderer.cpp lines 95-150). Returns early leaving the
state untouched when no frame is open or the count is zero, or (with a
diagnostic) when the ring-buffer cursor cannot accommodate
`count * sizeof(vk_vertex)` more bytes; otherwise copies the vertices at the
cursor, records the draw, and advances the cursor. -/
def vk_emit_draw (s : vk_state) (pipe_id : vk_pipeline_id) (verts : List vk_vertex) : vk_state :=
  if s.frame_started = false ∨ verts.length = 0 then s
  else
    let frame := frameOf s
    let needed := verts.length * sizeof_vk_vertex
    if frame.vertex_offset + needed > VK_VERTEX_RING_SIZE then s
    else
      let frame' := { frame with
        written := frame.written ++ [(frame.vertex_offset, verts)]
        cmd_draws := frame.cmd_draws ++ [emitCmd s pipe_id verts]
        vertex_offset := frame.vertex_offset + needed }
      { s with frames := s.frames.set s.current_frame frame' }

/-- `vk_draw_triangles` (vk_renderer.cpp lines 152-160). -/
def vk_draw_triangles (s : vk_state) (verts : List vk_vertex) (textured is_3d : Bool) : vk_state :=
  let pipe := if textured
    then (if is_3d then vk_pipeline_id.textured_3d else vk_pipeline_id.textured_2d)
    else (if is_3d then vk_pipeline_id.flat_3d else vk_pipeline_id.flat_2d)
  vk_emit_draw s pipe verts

/-- `vk_draw_triangle_fan` (vk_renderer.cpp lines 162-171). -/
def vk_draw_triangle_fan (s : vk_state) (verts : List vk_vertex) (textured is_3d : Bool) : vk_state :=
  if verts.length < 3 then s
  else vk_draw_triangles s (fan_to_list verts) textured is_3d

/-- `vk_draw_lines` (vk_renderer.cpp lines 173-177). -/
def vk_draw_lines (s : vk_state) (verts : List vk_vertex) (is_3d : Bool) : vk_state :=
  vk_emit_draw s (if is_3d then vk_pipeline_id.line_3d else vk_pipeline_id.line_2d) verts

/-! ## Texture lifecycle (vk_texture.cpp) -/

/-- `next_power_of_two` (vk_texture.cpp lines 47-57): the classic
bit-twiddling round-up on a `uint32_t` (`v--`, five or-shift steps, `v++`). -/
def next_power_of_two (v : ℕ) : ℕ :=
  let v := (v + UINT32_MAX) % 2 ^ 32
  let v := v ||| (v >>> 1)
  let v := v ||| (v >>> 2)
  let v := v ||| (v >>> 4)
  let v := v ||| (v >>> 8)
  let v := v ||| (v >>> 16)
  (v + 1) % 2 ^ 32

/-- `vk_create_texture` (vk_texture.cpp lines 59-232), success path. The GPU
objects created along the way (image, view, sampler, descriptor set) are
modelled as fresh handles drawn from the state's handle supply; the staging
buffer is created, filled from the caller's RGBA bytes with zero padding,
and destroyed within the call, so it leaves no trace in the state and the
pixel bytes are not carried in the model. Dimension bookkeeping (`tw`/`th`
padded to powers of two, `u_scale = w/tw`, `v_scale = h/th`) follows the
source; the texture is returned with `valid = true`. -/
def vk_create_texture (s : vk_state) (w h : ℕ) : vk_state × vk_texture :=
  let tw := next_power_of_two w
  let th := next_power_of_two h
  let tex : vk_texture :=
    { image := s.next_handle
      allocation := s.next_handle
      view := s.next_handle + 1
      sampler := s.next_handle + 2
      descriptor_set := s.next_handle + 3
      w := w
      h := h
      tw := tw
      th := th
      u_scale := (w : ℚ) / (tw : ℚ)
      v_scale := (h : ℚ) / (th : ℚ)
      valid := true }
  ({ s with next_handle := s.next_handle + 4 }, tex)

/-- `vk_destroy_texture` (vk_texture.cpp lines 234-249). `none` models a
null `vk_texture *` (early return). Otherwise the descriptor set is freed
back to the pool when both it and the pool are non-null (logged in
`freed_descriptor_sets`); sampler, view and image are destroyed (their
handles simply vanish with the struct); finally `*tex = {}` zeroes the
caller's texture record. The global state's `bound_texture` is not touched
by this function. -/
def vk_destroy_texture (s : vk_state) (tex : Option vk_texture) : vk_state × Option vk_texture :=
  match tex with
  | none => (s, none)
  | some t =>
    let s' := if t.descriptor_set ≠ 0 ∧ s.descriptor_pool ≠ 0
      then { s with freed_descriptor_sets := s.freed_descriptor_sets ++ [t.descriptor_set] }
      else s
    (s', some {})

/-- `vk_bind_texture` (vk_texture.cpp lines 251-257): bind the texture's
descriptor set, or the permanent white texture's descriptor set when the
pointer is null or the texture invalid. -/
def vk_bind_texture (s : vk_state) (tex : Option vk_texture) : vk_state :=
  match tex with
  | none => { s with bound_texture := s.white_texture.descriptor_set }
  | some t =>
    if t.valid = false then { s with bound_texture := s.white_texture.descriptor_set }
    else { s with bound_texture := t.descriptor_set }

/-! ## Swapchain and frame lifecycle (vk_init.cpp) -/

/-- The fields of `VkSurfaceCapabilitiesKHR` the source consults
(vk_init.cpp lines 209-236): `currentExtent` (width `UINT32_MAX` means the
surface does not mandate an extent), `minImageCount`, `maxImageCount`
(`0` means unlimited). These are platform-supplied inputs. -/
structure VkSurfaceCapabilities where
  currentExtent : ℕ × ℕ
  minImageCount : ℕ
  maxImageCount : ℕ
deriving DecidableEq

/-- `vk_create_swapchain` (vk_init.cpp lines 207-290), success path. The
extent is the caller's `(w, h)` unless the surface mandates
`caps.currentExtent`; the image count is `minImageCount + 1` clamped to
`maxImageCount` when that is non-zero. The swapchain handle, its images and
their views are fresh handles. Surface-format enumeration is a
platform query not consulted by any claim; the format field is left as is. -/
def vk_create_swapchain (s : vk_state) (w h : ℕ) (caps : VkSurfaceCapabilities) : vk_state :=
  let extent := if caps.currentExtent.1 ≠ UINT32_MAX then caps.currentExtent else (w, h)
  let ic := caps.minImageCount + 1
  let image_count := if caps.maxImageCount > 0 ∧ ic > caps.maxImageCount then caps.maxImageCount else ic
  { s with
    swapchain_extent := extent
    swapchain := s.next_handle
    swapchain_images := (List.range image_count).map fun i => s.next_handle + 1 + i
    swapchain_views := (List.range image_count).map fun i => s.next_handle + 1 + image_count + i
    next_handle := s.next_handle + 1 + 2 * image_count }

/-- `vk_create_depth_buffer` (vk_init.cpp lines 292-329), success path:
a fresh depth image/allocation and view at the swapchain extent. -/
def vk_create_depth_buffer (s : vk_state) : vk_state :=
  { s with
    depth_image := s.next_handle
    depth_allocation := s.next_handle
    depth_view := s.next_handle + 1
    next_handle := s.next_handle + 2 }

/-- `vk_create_framebuffers` (vk_init.cpp lines 386-408), success path:
one fresh framebuffer per swapchain image view. -/
def vk_create_framebuffers (s : vk_state) : vk_state :=
  { s with
    framebuffers := (List.range s.swapchain_views.length).map fun i => s.next_handle + i
    next_handle := s.next_handle + s.swapchain_views.length }

/-- `vk_recreate_swapchain` (vk_init.cpp lines 569-597): waits for the
device to idle, destroys the framebuffers, swapchain image views and depth
resources, recreates swapchain, depth buffer and framebuffers at the new
size, and records the new screen dimensions. Render pass, pipelines,
descriptor pool/layout, pipeline layout and the per-frame resources are not
touched. Success path (the source returns `false` if a recreation step
fails). -/
def vk_recreate_swapchain (s : vk_state) (w h : ℕ) (caps : VkSurfaceCapabilities) : vk_state :=
  let s := { s with
    framebuffers := []
    swapchain_views := []
    depth_view := 0
    depth_image := 0
    depth_allocation := 0 }
  let s := vk_create_swapchain s w h caps
  let s := vk_create_depth_buffer s
  let s := vk_create_framebuffers s
  { s with screen_width := w, screen_height := h }

/-- Result of `vkAcquireNextImageKHR` as the source distinguishes it
(vk_init.cpp lines 668-675): `VK_ERROR_OUT_OF_DATE_KHR` is special-cased;
every other result proceeds with the acquired image index. -/
inductive VkAcquireResult where
  | success (image_index : ℕ)
  | out_of_date
deriving DecidableEq

/-- `vk_begin_frame` (vk_init.cpp lines 659-704). Fails when not
initialized. Waits on the frame's fence, then acquires an image: on
`VK_ERROR_OUT_OF_DATE_KHR` it recreates the swapchain at the current screen
size and reports failure without opening a frame. Otherwise it resets the
fence, resets and reopens the command buffer (clearing its recorded draws),
begins the render pass with the fixed clear values, marks the frame open,
resets the ring-buffer cursor to 0 and clears the bound-texture
reference. -/
def vk_begin_frame (s : vk_state) (acquire : VkAcquireResult) (caps : VkSurfaceCapabilities) :
    vk_state × Bool :=
  if s.init_complete = false then (s, false)
  else
    match acquire with
    | VkAcquireResult.out_of_date =>
      (vk_recreate_swapchain s s.screen_width s.screen_height caps, false)
    | VkAcquireResult.success image_index =>
      let frame := frameOf s
      let frame' := { frame with cmd_draws := [], vertex_offset := 0 }
      ({ s with
        current_image_index := image_index
        frames := s.frames.set s.current_frame frame'
        in_render_pass := true
        frame_started := true
        bound_texture := 0 }, true)

/-- `vk_end_frame` (vk_init.cpp lines 706-721): no-op when no frame is
open; otherwise ends the render pass (when open) and closes command
recording. -/
def vk_end_frame (s : vk_state) : vk_state :=
  if s.frame_started = false then s
  else { s with in_render_pass := false, frame_started := false }

/-- `vk_present` (vk_init.cpp lines 723-751): submits the command buffer
and queues the present (GPU-side effects), then advances the frame index
modulo `VK_MAX_FRAMES_IN_FLIGHT` — the only CPU-state change. -/
def vk_present (s : vk_state) : vk_state :=
  { s with current_frame := (s.current_frame + 1) % VK_MAX_FRAMES_IN_FLIGHT }

/-! ## Derived definitions and concrete witness inputs -/

/-- The frame record written back by the success path of `vk_emit_draw`. -/
def emitFrame (s : vk_state) (pipe : vk_pipeline_id) (verts : List vk_vertex) : vk_frame_data :=
  { frameOf s with
    written := (frameOf s).written ++ [((frameOf s).vertex_offset, verts)]
    cmd_draws := (frameOf s).cmd_draws ++ [emitCmd s pipe verts]
    vertex_offset := (frameOf s).vertex_offset + verts.length * sizeof_vk_vertex }

/-- The ring-cursor bound: every frame record's cursor is within capacity. -/
def cursors_ok (s : vk_state) : Prop :=
  ∀ f ∈ s.frames, f.vertex_offset ≤ VK_VERTEX_RING_SIZE

instance (s : vk_state) : Decidable (cursors_ok s) :=
  List.decidableBAll _ s.frames

def C8st : vk_state := { init_complete := true }

def C1v : ℕ → vk_vertex := fun n => { x := n }

def C2caps : VkSurfaceCapabilities :=
  { currentExtent := (UINT32_MAX, 0), minImageCount := 2, maxImageCount := 0 }

def C2st : vk_state :=
  { frame_started := true
    init_complete := true
    frames := [{ vertex_offset := 100 }, {}] }

def C2stFull : vk_state :=
  { frame_started := true
    init_complete := true
    frames := [{ vertex_offset := VK_VERTEX_RING_SIZE }, {}] }

def C4tex : vk_texture := { descriptor_set := 5, valid := true }

def C4st : vk_state :=
  { descriptor_pool := 7
    white_texture := { descriptor_set := 1, valid := true } }

def C5tex : vk_texture :=
  { image := 2, view := 3, sampler := 4, descriptor_set := 5, w := 64, h := 64,
    tw := 64, th := 64, valid := true }

def C5st : vk_state :=
  { descriptor_pool := 7
    white_texture := { descriptor_set := 1, valid := true }
    bound_texture := 5 }

def C5aSt : vk_state :=
  { init_complete := true
    descriptor_pool := 7
    white_texture := { descriptor_set := 1, valid := true }
    bound_texture := 5 }

def C5aCaps : VkSurfaceCapabilities :=
  { currentExtent := (UINT32_MAX, 0), minImageCount := 2, maxImageCount := 0 }

def C9st : vk_state := { init_complete := true, screen_width := 800, screen_height := 600 }

def C9caps : VkSurfaceCapabilities :=
  { currentExtent := (800, 600), minImageCount := 2, maxImageCount := 0 }

def C6st : vk_state := { init_complete := true }

def C6caps : VkSurfaceCapabilities :=
  { currentExtent := (1024, 768), minImageCount := 2, maxImageCount := 3 }

def C6aCaps : VkSurfaceCapabilities :=
  { currentExtent := (UINT32_MAX, 0), minImageCount := 2, maxImageCount := 0 }

def C3st : vk_state := { frame_started := true, init_complete := true }

def C3q1 : List vk_vertex :=
  [{ x := 0, y := 0, z := 1 }, { x := 1, y := 0, z := 1 },
   { x := 1, y := 1, z := 1 }, { x := 0, y := 1, z := 1 }]

def C3q2 : List vk_vertex :=
  [{ x := 0, y := 0, u := 0, v := 0 }, { x := 1, y := 0, u := 1, v := 0 },
   { x := 1, y := 1, u := 1, v := 1 }, { x := 0, y := 1, u := 0, v := 1 }]

/-! ## Helper lemmas -/

theorem fan_to_list_length (l : List vk_vertex) (h : 3 ≤ l.length) :
    (fan_to_list l).length = 3 * (l.length - 2) := by
  unfold fan_to_list
  rw [if_neg (by omega)]
  simp [List.length_flatten, List.map_map, Function.comp_def]
  omega

theorem flatten_getD_of_len3 (L : List (List vk_vertex)) (hL : ∀ a ∈ L, a.length = 3)
    (i j : ℕ) (hi : i < L.length) (hj : j < 3) (d : vk_vertex) :
    L.flatten.getD (3 * i + j) d = (L.getD i []).getD j d := by
  induction L generalizing i with
  | nil => simp at hi
  | cons hd tl ih =>
    have hhd : hd.length = 3 := hL hd (List.mem_cons_self hd tl)
    cases i with
    | zero =>
      rw [List.flatten_cons, List.getD_append _ _ _ _ (by omega)]
      simp
    | succ i' =>
      rw [List.flatten_cons, List.getD_append_right _ _ _ _ (by omega)]
      have harith : 3 * (i' + 1) + j - hd.length = 3 * i' + j := by omega
      rw [harith]
      have htl : ∀ a ∈ tl, a.length = 3 := fun a ha => hL a (List.mem_cons_of_mem hd ha)
      have hi' : i' < tl.length := by simpa using hi
      simpa using ih htl i' hi'

theorem fan_to_list_getD (l : List vk_vertex) (h : 3 ≤ l.length) (i : ℕ)
    (hi : i < l.length - 2) :
    (fan_to_list l).getD (3 * i) {} = l.getD 0 {} ∧
    (fan_to_list l).getD (3 * i + 1) {} = l.getD (i + 1) {} ∧
    (fan_to_list l).getD (3 * i + 2) {} = l.getD (i + 2) {} := by
  have key : ∀ j, j < 3 →
      (fan_to_list l).getD (3 * i + j) {} =
        [l.getD 0 {}, l.getD (i + 1) {}, l.getD (i + 2) {}].getD j {} := by
    intro j hj
    unfold fan_to_list
    rw [if_neg (by omega)]
    have hmem : ∀ a ∈ (List.range (l.length - 2)).map
        (fun k => [l.getD 0 {}, l.getD (k + 1) {}, l.getD (k + 2) {}]), a.length = 3 := by
      intro a ha
      simp only [List.mem_map] at ha
      obtain ⟨k, _, rfl⟩ := ha
      rfl
    have hi2 : i < ((List.range (l.length - 2)).map
        (fun k => [l.getD 0 {}, l.getD (k + 1) {}, l.getD (k + 2) {}])).length := by
      simpa using hi
    rw [flatten_getD_of_len3 _ hmem i j hi2 hj]
    congr 1
    rw [List.getD_eq_getElem _ _ hi2]
    simp
  refine ⟨?_, key 1 (by omega), key 2 (by omega)⟩
  simpa using key 0 (by omega)

theorem getD_set_self (l : List vk_frame_data) (n : ℕ) (a d : vk_frame_data)
    (h : n < l.length) : (l.set n a).getD n d = a := by
  rw [List.getD_eq_getElem _ _ (by simpa using h)]
  exact List.getElem_set_self _

theorem emit_draw_noop_closed (s : vk_state) (pipe : vk_pipeline_id)
    (verts : List vk_vertex) (h : s.frame_started = false) :
    vk_emit_draw s pipe verts = s := by
  unfold vk_emit_draw
  rw [if_pos (Or.inl h)]

theorem emit_draw_noop_empty (s : vk_state) (pipe : vk_pipeline_id) :
    vk_emit_draw s pipe [] = s := by
  unfold vk_emit_draw
  rw [if_pos (show s.frame_started = false ∨ ([] : List vk_vertex).length = 0 from Or.inr rfl)]

theorem emit_draw_drop (s : vk_state) (pipe : vk_pipeline_id) (verts : List vk_vertex)
    (h : (frameOf s).vertex_offset + verts.length * sizeof_vk_vertex > VK_VERTEX_RING_SIZE) :
    vk_emit_draw s pipe verts = s := by
  unfold vk_emit_draw
  split
  · rfl
  · rw [if_pos h]

theorem emit_draw_success (s : vk_state) (pipe : vk_pipeline_id) (verts : List vk_vertex)
    (hstart : s.frame_started = true) (hne : verts.length ≠ 0)
    (hfit : (frameOf s).vertex_offset + verts.length * sizeof_vk_vertex ≤ VK_VERTEX_RING_SIZE) :
    vk_emit_draw s pipe verts =
      { s with frames := s.frames.set s.current_frame (emitFrame s pipe verts) } := by
  unfold vk_emit_draw
  rw [if_neg (by simp [hstart, hne]), if_neg (by omega)]
  rfl

theorem cursors_ok_of_frames_eq {s s' : vk_state} (hfr : s'.frames = s.frames)
    (h : cursors_ok s) : cursors_ok s' := by
  unfold cursors_ok at h ⊢
  rw [hfr]
  exact h

theorem end_frame_frames_eq (s : vk_state) : (vk_end_frame s).frames = s.frames := by
  unfold vk_end_frame
  split <;> rfl

theorem present_frames_eq (s : vk_state) : (vk_present s).frames = s.frames := rfl

theorem bind_frames_eq (s : vk_state) (t : Option vk_texture) :
    (vk_bind_texture s t).frames = s.frames := by
  cases t with
  | none => rfl
  | some tex =>
    by_cases hv : tex.valid = false
    · simp [vk_bind_texture, hv]
    · simp [vk_bind_texture, hv]

theorem destroy_frames_eq (s : vk_state) (t : Option vk_texture) :
    (vk_destroy_texture s t).1.frames = s.frames := by
  cases t with
  | none => rfl
  | some tex =>
    by_cases hc : tex.descriptor_set ≠ 0 ∧ s.descriptor_pool ≠ 0
    · simp [vk_destroy_texture, hc]
    · simp [vk_destroy_texture, hc]

theorem create_frames_eq (s : vk_state) (w h : ℕ) :
    (vk_create_texture s w h).1.frames = s.frames := rfl

theorem recreate_frames_eq (s : vk_state) (w h : ℕ) (caps : VkSurfaceCapabilities) :
    (vk_recreate_swapchain s w h caps).frames = s.frames := rfl

theorem begin_frame_success_shape (s : vk_state) (idx : ℕ) (caps : VkSurfaceCapabilities)
    (hinit : s.init_complete = true) :
    vk_begin_frame s (VkAcquireResult.success idx) caps =
      ({ s with
          current_image_index := idx
          frames := s.frames.set s.current_frame { frameOf s with cmd_draws := [], vertex_offset := 0 }
          in_render_pass := true
          frame_started := true
          bound_texture := 0 }, true) := by
  unfold vk_begin_frame
  rw [if_neg (by simp [hinit])]

theorem begin_frame_ood_shape (s : vk_state) (caps : VkSurfaceCapabilities)
    (hinit : s.init_complete = true) :
    vk_begin_frame s VkAcquireResult.out_of_date caps =
      (vk_recreate_swapchain s s.screen_width s.screen_height caps, false) := by
  unfold vk_begin_frame
  rw [if_neg (by simp [hinit])]

theorem begin_frame_uninit_shape (s : vk_state) (acq : VkAcquireResult)
    (caps : VkSurfaceCapabilities) (hinit : s.init_complete = false) :
    vk_begin_frame s acq caps = (s, false) := by
  unfold vk_begin_frame
  rw [if_pos hinit]

theorem cursors_ok_emit (s : vk_state) (pipe : vk_pipeline_id) (verts : List vk_vertex)
    (h : cursors_ok s) : cursors_ok (vk_emit_draw s pipe verts) := by
  by_cases h1 : s.frame_started = false ∨ verts.length = 0
  · rw [show vk_emit_draw s pipe verts = s from by unfold vk_emit_draw; rw [if_pos h1]]
    exact h
  · by_cases h2 : (frameOf s).vertex_offset + verts.length * sizeof_vk_vertex > VK_VERTEX_RING_SIZE
    · rw [emit_draw_drop s pipe verts h2]
      exact h
    · push_neg at h1
      have hstart : s.frame_started = true := by
        cases hb : s.frame_started
        · exact absurd hb h1.1
        · rfl
      rw [emit_draw_success s pipe verts hstart h1.2 (Nat.le_of_not_lt h2)]
      intro f hf
      rcases List.mem_or_eq_of_mem_set hf with hf' | rfl
      · exact h f hf'
      · show (frameOf s).vertex_offset + verts.length * sizeof_vk_vertex ≤ VK_VERTEX_RING_SIZE
        omega

theorem cursors_ok_begin (s : vk_state) (acq : VkAcquireResult) (caps : VkSurfaceCapabilities)
    (h : cursors_ok s) : cursors_ok (vk_begin_frame s acq caps).1 := by
  by_cases hinit : s.init_complete = true
  · cases acq with
    | out_of_date =>
      rw [begin_frame_ood_shape s caps hinit]
      exact cursors_ok_of_frames_eq (recreate_frames_eq s _ _ caps) h
    | success idx =>
      rw [begin_frame_success_shape s idx caps hinit]
      intro f hf
      rcases List.mem_or_eq_of_mem_set hf with hf' | rfl
      · exact h f hf'
      · exact Nat.zero_le _
  · have hinit' : s.init_complete = false := by
      cases hb : s.init_complete
      · rfl
      · exact absurd hb hinit
    rw [begin_frame_uninit_shape s acq caps hinit']
    exact h

/-- C7: for every field of view (entering through its half-angle tangent),
aspect ratio, near and far plane, the perspective construction produces a
column-major matrix with `m[10] = (far+near)/(near-far)`,
`m[14] = 2*far*near/(near-far)` and `m[11] = -1`. -/
theorem C7_perspective_entries (tan_half_fovy aspect near_val far_val : ℚ) :
    (vk_mat4_perspective tan_half_fovy aspect near_val far_val).getD 10 0
      = (far_val + near_val) / (near_val - far_val) ∧
    (vk_mat4_perspective tan_half_fovy aspect near_val far_val).getD 14 0
      = 2 * far_val * near_val / (near_val - far_val) ∧
    (vk_mat4_perspective tan_half_fovy aspect near_val far_val).getD 11 0 = -1 :=
  ⟨rfl, rfl, rfl⟩

/-- C8: every draw call issued while no frame is open is a silent no-op —
the state (command buffers, logs, ring cursor) is left fully unchanged. -/
theorem C8_draw_without_frame_noop (s : vk_state) (h : s.frame_started = false) :
    (∀ verts textured is_3d, vk_draw_triangles s verts textured is_3d = s) ∧
    (∀ verts textured is_3d, vk_draw_triangle_fan s verts textured is_3d = s) ∧
    (∀ verts is_3d, vk_draw_lines s verts is_3d = s) := by
  have hemit : ∀ pipe verts, vk_emit_draw s pipe verts = s :=
    fun pipe verts => emit_draw_noop_closed s pipe verts h
  refine ⟨fun verts textured is_3d => ?_, fun verts textured is_3d => ?_, fun verts is_3d => ?_⟩
  · unfold vk_draw_triangles
    exact hemit _ _
  · unfold vk_draw_triangle_fan
    split
    · rfl
    · unfold vk_draw_triangles
      exact hemit _ _
  · unfold vk_draw_lines
    exact hemit _ _

theorem C8_witness :
    vk_draw_triangles C8st [{}] true true = C8st ∧
    vk_draw_triangle_fan C8st [{}, {}, {}] false true = C8st ∧
    vk_draw_lines C8st [{}, {}] false = C8st :=
  ⟨(C8_draw_without_frame_noop C8st rfl).1 _ _ _,
   (C8_draw_without_frame_noop C8st rfl).2.1 _ _ _,
   (C8_draw_without_frame_noop C8st rfl).2.2 _ _⟩

/-- C10: a draw call whose vertex count is exactly 0 is a no-op in every
state, frame open or not: no bytes are copied, no pipeline bind or draw is
recorded, and the ring cursor is unchanged (the whole state is unchanged). -/
theorem C10_zero_count_noop (s : vk_state) (pipe : vk_pipeline_id) (textured is_3d : Bool) :
    vk_emit_draw s pipe [] = s ∧
    vk_draw_triangles s [] textured is_3d = s ∧
    vk_draw_lines s [] is_3d = s := by
  refine ⟨emit_draw_noop_empty s pipe, ?_, ?_⟩
  · unfold vk_draw_triangles
    exact emit_draw_noop_empty s _
  · unfold vk_draw_lines
    exact emit_draw_noop_empty s _

/-- C1: for every vertex list of `count ≥ 3` vertices, `vk_draw_triangle_fan`
emits the `fan_to_list` expansion: exactly `count-2` triangles
(`3*(count-2)` vertices), triangle `i` being `{v0, v(i+1), v(i+2)}` — the
fixed-apex order. For `count < 3` the expansion is empty and the call is a
silent no-op (zero draws, state unchanged). -/
theorem C1_triangle_fan_expansion (verts : List vk_vertex) :
    (3 ≤ verts.length →
      (∀ s textured is_3d, vk_draw_triangle_fan s verts textured is_3d
        = vk_draw_triangles s (fan_to_list verts) textured is_3d) ∧
      (fan_to_list verts).length = 3 * (verts.length - 2) ∧
      (∀ i, i < verts.length - 2 →
        (fan_to_list verts).getD (3 * i) {} = verts.getD 0 {} ∧
        (fan_to_list verts).getD (3 * i + 1) {} = verts.getD (i + 1) {} ∧
        (fan_to_list verts).getD (3 * i + 2) {} = verts.getD (i + 2) {})) ∧
    (verts.length < 3 →
      fan_to_list verts = [] ∧
      ∀ s textured is_3d, vk_draw_triangle_fan s verts textured is_3d = s) := by
  constructor
  · intro h3
    refine ⟨fun s textured is_3d => ?_, fan_to_list_length verts h3,
      fun i hi => fan_to_list_getD verts h3 i hi⟩
    unfold vk_draw_triangle_fan
    rw [if_neg (by omega)]
  · intro hlt
    have hempty : fan_to_list verts = [] := by
      unfold fan_to_list
      rw [if_pos hlt]
    refine ⟨hempty, fun s textured is_3d => ?_⟩
    unfold vk_draw_triangle_fan
    rw [if_pos hlt]

theorem C1_witness :
    (fan_to_list [C1v 0, C1v 1, C1v 2, C1v 3]).length
      = 3 * ([C1v 0, C1v 1, C1v 2, C1v 3].length - 2) ∧
    (fan_to_list [C1v 0, C1v 1, C1v 2, C1v 3]).getD 4 {}
      = [C1v 0, C1v 1, C1v 2, C1v 3].getD 2 {} ∧
    fan_to_list [C1v 0, C1v 1] = [] :=
  ⟨((C1_triangle_fan_expansion _).1 (by decide)).2.1,
   (((C1_triangle_fan_expansion _).1 (by decide)).2.2 1 (by decide)).2.1,
   ((C1_triangle_fan_expansion _).2 (by decide)).1⟩

/-- C2: the ring-buffer cursor of the current frame is exactly 0 after every
successful `vk_begin_frame`; the invariant `cursor ≤ VK_VERTEX_RING_SIZE`
(on every frame record) is preserved by every operation of the renderer;
and a draw whose byte requirement would push the cursor past capacity is
dropped with the whole state — in particular the cursor — unchanged. -/
theorem C2_ring_cursor_invariant :
    (∀ s acq caps, (vk_begin_frame s acq caps).2 = true →
      (frameOf (vk_begin_frame s acq caps).1).vertex_offset = 0) ∧
    (∀ s acq caps, cursors_ok s → cursors_ok (vk_begin_frame s acq caps).1) ∧
    (∀ s pipe verts, cursors_ok s → cursors_ok (vk_emit_draw s pipe verts)) ∧
    (∀ s verts textured is_3d, cursors_ok s → cursors_ok (vk_draw_triangles s verts textured is_3d)) ∧
    (∀ s verts textured is_3d, cursors_ok s → cursors_ok (vk_draw_triangle_fan s verts textured is_3d)) ∧
    (∀ s verts is_3d, cursors_ok s → cursors_ok (vk_draw_lines s verts is_3d)) ∧
    (∀ s, cursors_ok s → cursors_ok (vk_end_frame s)) ∧
    (∀ s, cursors_ok s → cursors_ok (vk_present s)) ∧
    (∀ s t, cursors_ok s → cursors_ok (vk_bind_texture s t)) ∧
    (∀ s t, cursors_ok s → cursors_ok (vk_destroy_texture s t).1) ∧
    (∀ s w h, cursors_ok s → cursors_ok (vk_create_texture s w h).1) ∧
    (∀ s w h caps, cursors_ok s → cursors_ok (vk_recreate_swapchain s w h caps)) ∧
    (∀ s pipe verts,
      (frameOf s).vertex_offset + verts.length * sizeof_vk_vertex > VK_VERTEX_RING_SIZE →
      vk_emit_draw s pipe verts = s) := by
  refine ⟨?_, cursors_ok_begin, cursors_ok_emit, ?_, ?_, ?_,
    fun s h => cursors_ok_of_frames_eq (end_frame_frames_eq s) h,
    fun s h => cursors_ok_of_frames_eq (present_frames_eq s) h,
    fun s t h => cursors_ok_of_frames_eq (bind_frames_eq s t) h,
    fun s t h => cursors_ok_of_frames_eq (destroy_frames_eq s t) h,
    fun s w hh h => cursors_ok_of_frames_eq (create_frames_eq s w hh) h,
    fun s w hh caps h => cursors_ok_of_frames_eq (recreate_frames_eq s w hh caps) h,
    emit_draw_drop⟩
  · intro s acq caps h
    by_cases hinit : s.init_complete = true
    · cases acq with
      | out_of_date =>
        rw [begin_frame_ood_shape s caps hinit] at h
        exact absurd h (by simp)
      | success idx =>
        rw [begin_frame_success_shape s idx caps hinit]
        show ((s.frames.set s.current_frame
          { frameOf s with cmd_draws := [], vertex_offset := 0 }).getD s.current_frame {}).vertex_offset = 0
        by_cases hlt : s.current_frame < s.frames.length
        · rw [getD_set_self _ _ _ _ hlt]
        · rw [List.getD_eq_default _ _ (by simpa using Nat.le_of_not_lt hlt)]
    · have hinit' : s.init_complete = false := by
        cases hb : s.init_complete
        · rfl
        · exact absurd hb hinit
      rw [begin_frame_uninit_shape s acq caps hinit'] at h
      exact absurd h (by simp)
  · intro s verts textured is_3d h
    unfold vk_draw_triangles
    exact cursors_ok_emit _ _ _ h
  · intro s verts textured is_3d h
    unfold vk_draw_triangle_fan
    split
    · exact h
    · unfold vk_draw_triangles
      exact cursors_ok_emit _ _ _ h
  · intro s verts is_3d h
    unfold vk_draw_lines
    exact cursors_ok_emit _ _ _ h

theorem C2_witness :
    (frameOf (vk_begin_frame C2st (VkAcquireResult.success 0) C2caps).1).vertex_offset = 0 ∧
    cursors_ok (vk_emit_draw C2st vk_pipeline_id.flat_3d [{}, {}, {}]) ∧
    vk_emit_draw C2stFull vk_pipeline_id.flat_3d [{}] = C2stFull :=
  ⟨C2_ring_cursor_invariant.1 C2st _ C2caps (by decide),
   C2_ring_cursor_invariant.2.2.1 C2st _ _ (by decide),
   C2_ring_cursor_invariant.2.2.2.2.2.2.2.2.2.2.2.2 C2stFull _ _ (by decide)⟩

/-- C4: `vk_bind_texture` binds the argument texture's descriptor set when
the texture is non-null and valid, and the permanent white fallback
texture's descriptor set when the argument is null or invalid; in
particular, destroying a texture and then binding it leaves the white
fallback's descriptor set bound (the destroyed record is zeroed, so its
`valid` flag is false). -/
theorem C4_bind_texture_fallback (s : vk_state) (t : vk_texture) :
    (t.valid = true → vk_bind_texture s (some t) = { s with bound_texture := t.descriptor_set }) ∧
    (vk_bind_texture s none = { s with bound_texture := s.white_texture.descriptor_set }) ∧
    (t.valid = false → vk_bind_texture s (some t) = { s with bound_texture := s.white_texture.descriptor_set }) ∧
    (vk_bind_texture (vk_destroy_texture s (some t)).1 (vk_destroy_texture s (some t)).2).bound_texture
      = s.white_texture.descriptor_set := by
  refine ⟨fun hv => ?_, rfl, fun hv => ?_, ?_⟩
  · simp [vk_bind_texture, hv]
  · simp [vk_bind_texture, hv]
  · by_cases hc : t.descriptor_set ≠ 0 ∧ s.descriptor_pool ≠ 0
    · simp [vk_destroy_texture, vk_bind_texture, hc]
    · simp [vk_destroy_texture, vk_bind_texture, hc]

theorem C4_witness :
    vk_bind_texture C4st (some C4tex) = { C4st with bound_texture := C4tex.descriptor_set } ∧
    (vk_bind_texture (vk_destroy_texture C4st (some C4tex)).1
        (vk_destroy_texture C4st (some C4tex)).2).bound_texture
      = C4st.white_texture.descriptor_set :=
  ⟨(C4_bind_texture_fallback C4st C4tex).1 rfl,
   (C4_bind_texture_fallback C4st C4tex).2.2.2⟩

/-- C5 counterexample: in a state where texture `C5tex` (descriptor set 5)
is currently bound, `vk_destroy_texture` frees that descriptor set back to
the pool yet leaves the context's bound-texture reference equal to the
freed handle — it has NOT fallen back to the white texture's descriptor
set (1), contradicting the claim that immediately after destruction the
bound reference no longer refers to the freed set. -/
theorem C5_counterexample :
    (vk_destroy_texture C5st (some C5tex)).1.bound_texture = C5tex.descriptor_set ∧
    C5tex.descriptor_set ∈ (vk_destroy_texture C5st (some C5tex)).1.freed_descriptor_sets ∧
    (vk_destroy_texture C5st (some C5tex)).1.bound_texture
      ≠ (vk_destroy_texture C5st (some C5tex)).1.white_texture.descriptor_set := by
  decide

/-- C5 amended: `vk_destroy_texture` never modifies the bound-texture
reference (so a texture bound at destruction stays referenced by the
context until the reference is next overwritten); the reference is cleared
to null by every successful `vk_begin_frame`; and re-binding the destroyed
texture record binds the white fallback's descriptor set, because
destruction zeroes the record's `valid` flag. -/
theorem C5_amended_destroy_binding (s : vk_state) (t : Option vk_texture) (tex : vk_texture)
    (acq : VkAcquireResult) (caps : VkSurfaceCapabilities) :
    (vk_destroy_texture s t).1.bound_texture = s.bound_texture ∧
    ((vk_begin_frame s acq caps).2 = true → (vk_begin_frame s acq caps).1.bound_texture = 0) ∧
    (vk_bind_texture (vk_destroy_texture s (some tex)).1 (vk_destroy_texture s (some tex)).2).bound_texture
      = s.white_texture.descriptor_set := by
  refine ⟨?_, ?_, ?_⟩
  · cases t with
    | none => rfl
    | some tx =>
      by_cases hc : tx.descriptor_set ≠ 0 ∧ s.descriptor_pool ≠ 0
      · simp [vk_destroy_texture, hc]
      · simp [vk_destroy_texture, hc]
  · intro h
    by_cases hinit : s.init_complete = true
    · cases acq with
      | out_of_date =>
        rw [begin_frame_ood_shape s caps hinit] at h
        exact absurd h (by simp)
      | success idx =>
        rw [begin_frame_success_shape s idx caps hinit]
    · have hinit' : s.init_complete = false := by
        cases hb : s.init_complete
        · rfl
        · exact absurd hb hinit
      rw [begin_frame_uninit_shape s acq caps hinit'] at h
      exact absurd h (by simp)
  · by_cases hc : tex.descriptor_set ≠ 0 ∧ s.descriptor_pool ≠ 0
    · simp [vk_destroy_texture, vk_bind_texture, hc]
    · simp [vk_destroy_texture, vk_bind_texture, hc]

theorem C5_amended_witness :
    (vk_destroy_texture C5aSt (some C5tex)).1.bound_texture = C5aSt.bound_texture ∧
    (vk_begin_frame C5aSt (VkAcquireResult.success 0) C5aCaps).1.bound_texture = 0 :=
  ⟨(C5_amended_destroy_binding C5aSt (some C5tex) C5tex (VkAcquireResult.success 0) C5aCaps).1,
   (C5_amended_destroy_binding C5aSt (some C5tex) C5tex (VkAcquireResult.success 0) C5aCaps).2.1
     (by decide)⟩

/-- C9: when image acquisition reports the surface out of date,
`vk_begin_frame` recreates the swapchain at the current screen size,
returns failure for the frame, and does not open a frame (`frame_started`
is exactly what it was before the call). -/
theorem C9_out_of_date_recreates (s : vk_state) (caps : VkSurfaceCapabilities)
    (h : s.init_complete = true) :
    (vk_begin_frame s VkAcquireResult.out_of_date caps).2 = false ∧
    (vk_begin_frame s VkAcquireResult.out_of_date caps).1
      = vk_recreate_swapchain s s.screen_width s.screen_height caps ∧
    (vk_begin_frame s VkAcquireResult.out_of_date caps).1.frame_started = s.frame_started := by
  rw [begin_frame_ood_shape s caps h]
  exact ⟨rfl, rfl, rfl⟩

theorem C9_witness :
    (vk_begin_frame C9st VkAcquireResult.out_of_date C9caps).2 = false ∧
    (vk_begin_frame C9st VkAcquireResult.out_of_date C9caps).1.frame_started = C9st.frame_started :=
  ⟨(C9_out_of_date_recreates C9st C9caps rfl).1,
   (C9_out_of_date_recreates C9st C9caps rfl).2.2⟩

/-- C6 counterexample: `vk_recreate_swapchain` defers to the surface's
mandated `currentExtent` when one is reported — recreating at `(800,600)`
against a surface whose current extent is `(1024,768)` yields a swapchain
extent of `(1024,768)`, not `(800,600)`, so the claim's "extent reflects
`(w2,h2)`" is false as stated. -/
theorem C6_counterexample :
    (vk_recreate_swapchain C6st 800 600 C6caps).swapchain_extent ≠ (800, 600) := by
  decide

/-- C6 amended: `vk_recreate_swapchain (w2,h2)` leaves the render pass,
the whole pipeline table, the pipeline layout, descriptor pool and layout,
the white texture and bound-texture reference, the command pool, and every
per-frame resource (command buffers, semaphores, fences, vertex ring
buffers) identity-equal to their prior values; the recorded screen size
becomes `(w2,h2)`; and the swapchain extent becomes `(w2,h2)` exactly when
the surface does not mandate a current extent (`currentExtent.width ==
UINT32_MAX`), while a mandated surface extent is adopted instead. -/
theorem C6_amended_recreate_preserves (s : vk_state) (w h : ℕ) (caps : VkSurfaceCapabilities) :
    (vk_recreate_swapchain s w h caps).render_pass = s.render_pass ∧
    (vk_recreate_swapchain s w h caps).pipelines = s.pipelines ∧
    (vk_recreate_swapchain s w h caps).pipeline_layout = s.pipeline_layout ∧
    (vk_recreate_swapchain s w h caps).descriptor_pool = s.descriptor_pool ∧
    (vk_recreate_swapchain s w h caps).descriptor_set_layout = s.descriptor_set_layout ∧
    (vk_recreate_swapchain s w h caps).white_texture = s.white_texture ∧
    (vk_recreate_swapchain s w h caps).bound_texture = s.bound_texture ∧
    (vk_recreate_swapchain s w h caps).command_pool = s.command_pool ∧
    (vk_recreate_swapchain s w h caps).frames = s.frames ∧
    (vk_recreate_swapchain s w h caps).screen_width = w ∧
    (vk_recreate_swapchain s w h caps).screen_height = h ∧
    (caps.currentExtent.1 = UINT32_MAX →
      (vk_recreate_swapchain s w h caps).swapchain_extent = (w, h)) ∧
    (caps.currentExtent.1 ≠ UINT32_MAX →
      (vk_recreate_swapchain s w h caps).swapchain_extent = caps.currentExtent) := by
  refine ⟨rfl, rfl, rfl, rfl, rfl, rfl, rfl, rfl, rfl, rfl, rfl, fun hce => ?_, fun hce => ?_⟩
  · show (if caps.currentExtent.1 ≠ UINT32_MAX then caps.currentExtent else (w, h)) = (w, h)
    rw [if_neg (by simp [hce])]
  · show (if caps.currentExtent.1 ≠ UINT32_MAX then caps.currentExtent else (w, h)) = caps.currentExtent
    rw [if_pos hce]

theorem C6_amended_witness :
    (vk_recreate_swapchain C6st 800 600 C6aCaps).frames = C6st.frames ∧
    (vk_recreate_swapchain C6st 800 600 C6aCaps).swapchain_extent = (800, 600) ∧
    (vk_recreate_swapchain C6st 800 600 C6caps).swapchain_extent = C6caps.currentExtent :=
  ⟨(C6_amended_recreate_preserves C6st 800 600 C6aCaps).2.2.2.2.2.2.2.2.1,
   (C6_amended_recreate_preserves C6st 800 600 C6aCaps).2.2.2.2.2.2.2.2.2.2.2.1 (by decide),
   (C6_amended_recreate_preserves C6st 800 600 C6caps).2.2.2.2.2.2.2.2.2.2.2.2 (by decide)⟩

theorem fan_reduces (s : vk_state) (v : List vk_vertex) (hv : 3 ≤ v.length)
    (textured is_3d : Bool) :
    vk_draw_triangle_fan s v textured is_3d = vk_emit_draw s
      (if textured then (if is_3d then vk_pipeline_id.textured_3d else vk_pipeline_id.textured_2d)
       else (if is_3d then vk_pipeline_id.flat_3d else vk_pipeline_id.flat_2d)) (fan_to_list v) := by
  unfold vk_draw_triangle_fan
  rw [if_neg (by omega)]
  rfl

/-- C3: with a frame open under `normal` blend and at least 432 bytes of
ring capacity left, drawing a flat 3D fan of 4 vertices and then a textured
2D fan of 4 vertices appends exactly two draw commands with distinct
pipeline selections — `(flat_3d, normal)` then `(textured_2d, normal)` —
and advances the ring cursor by `216 + 216 = 432` bytes (each quad fan
expands to 2 triangles = 6 vertices of 36 bytes). -/
theorem C3_two_quad_fans (s : vk_state) (v1 v2 : List vk_vertex)
    (hstart : s.frame_started = true)
    (hblend : s.current_blend = vk_blend_mode.normal)
    (hlen1 : v1.length = 4) (hlen2 : v2.length = 4)
    (hfit : (frameOf s).vertex_offset + 432 ≤ VK_VERTEX_RING_SIZE)
    (hlt : s.current_frame < s.frames.length) :
    ∃ c1 c2,
      (frameOf (vk_draw_triangle_fan (vk_draw_triangle_fan s v1 false true) v2 true false)).cmd_draws
        = (frameOf s).cmd_draws ++ [c1, c2] ∧
      c1.pipeline = vk_pipeline_id.flat_3d ∧
      c1.blend = vk_blend_mode.normal ∧
      c2.pipeline = vk_pipeline_id.textured_2d ∧
      c2.blend = vk_blend_mode.normal ∧
      c1.pipeline ≠ c2.pipeline ∧
      (frameOf (vk_draw_triangle_fan s v1 false true)).vertex_offset
        = (frameOf s).vertex_offset + 216 ∧
      (frameOf (vk_draw_triangle_fan (vk_draw_triangle_fan s v1 false true) v2 true false)).vertex_offset
        = (frameOf s).vertex_offset + 432 := by
  have h3a : 3 ≤ v1.length := by omega
  have h3b : 3 ≤ v2.length := by omega
  have hl1 : (fan_to_list v1).length = 6 := by rw [fan_to_list_length v1 h3a, hlen1]
  have hl2 : (fan_to_list v2).length = 6 := by rw [fan_to_list_length v2 h3b, hlen2]
  have hn1 : (fan_to_list v1).length * sizeof_vk_vertex = 216 := by
    rw [hl1]
    rfl
  have hn2 : (fan_to_list v2).length * sizeof_vk_vertex = 216 := by
    rw [hl2]
    rfl
  have hfit1 : (frameOf s).vertex_offset + (fan_to_list v1).length * sizeof_vk_vertex
      ≤ VK_VERTEX_RING_SIZE := by
    rw [hn1]
    omega
  have e1 : vk_draw_triangle_fan s v1 false true
      = { s with frames := s.frames.set s.current_frame (emitFrame s vk_pipeline_id.flat_3d (fan_to_list v1)) } := by
    rw [fan_reduces s v1 h3a false true]
    exact emit_draw_success s _ _ hstart (by omega) hfit1
  have hfr1 : frameOf (vk_draw_triangle_fan s v1 false true)
      = emitFrame s vk_pipeline_id.flat_3d (fan_to_list v1) := by
    rw [e1]
    show (s.frames.set s.current_frame _).getD s.current_frame {} = _
    exact getD_set_self _ _ _ _ hlt
  have hof1 : (frameOf (vk_draw_triangle_fan s v1 false true)).vertex_offset
      = (frameOf s).vertex_offset + 216 := by
    rw [hfr1]
    show (frameOf s).vertex_offset + (fan_to_list v1).length * sizeof_vk_vertex = _
    omega
  have hcd1 : (frameOf (vk_draw_triangle_fan s v1 false true)).cmd_draws
      = (frameOf s).cmd_draws ++ [emitCmd s vk_pipeline_id.flat_3d (fan_to_list v1)] := by
    rw [hfr1]
    rfl
  have hstart1 : (vk_draw_triangle_fan s v1 false true).frame_started = true := by
    rw [e1]
    exact hstart
  have hblend1 : (vk_draw_triangle_fan s v1 false true).current_blend = vk_blend_mode.normal := by
    rw [e1]
    exact hblend
  have hlt1 : (vk_draw_triangle_fan s v1 false true).current_frame
      < (vk_draw_triangle_fan s v1 false true).frames.length := by
    rw [e1]
    show s.current_frame < (s.frames.set _ _).length
    simpa using hlt
  have hfit2 : (frameOf (vk_draw_triangle_fan s v1 false true)).vertex_offset
      + (fan_to_list v2).length * sizeof_vk_vertex ≤ VK_VERTEX_RING_SIZE := by
    rw [hof1, hn2]
    omega
  have e2 : vk_draw_triangle_fan (vk_draw_triangle_fan s v1 false true) v2 true false
      = { (vk_draw_triangle_fan s v1 false true) with frames := (vk_draw_triangle_fan s v1 false true).frames.set (vk_draw_triangle_fan s v1 false true).current_frame (emitFrame (vk_draw_triangle_fan s v1 false true) vk_pipeline_id.textured_2d (fan_to_list v2)) } := by
    rw [fan_reduces _ v2 h3b true false]
    exact emit_draw_success _ _ _ hstart1 (by omega) hfit2
  have hfr2 : frameOf (vk_draw_triangle_fan (vk_draw_triangle_fan s v1 false true) v2 true false)
      = emitFrame (vk_draw_triangle_fan s v1 false true)
          vk_pipeline_id.textured_2d (fan_to_list v2) := by
    rw [e2]
    show ((vk_draw_triangle_fan s v1 false true).frames.set _ _).getD _ {} = _
    exact getD_set_self _ _ _ _ hlt1
  refine ⟨emitCmd s vk_pipeline_id.flat_3d (fan_to_list v1),
    emitCmd (vk_draw_triangle_fan s v1 false true) vk_pipeline_id.textured_2d (fan_to_list v2),
    ?_, rfl, hblend, rfl, hblend1,
    (by decide : vk_pipeline_id.flat_3d ≠ vk_pipeline_id.textured_2d), hof1, ?_⟩
  · rw [hfr2]
    show (frameOf (vk_draw_triangle_fan s v1 false true)).cmd_draws ++ [_] = _
    rw [hcd1, List.append_assoc]
    rfl
  · rw [hfr2]
    show (frameOf (vk_draw_triangle_fan s v1 false true)).vertex_offset
      + (fan_to_list v2).length * sizeof_vk_vertex = _
    rw [hof1, hn2]

theorem C3_witness :
    ∃ c1 c2,
      (frameOf (vk_draw_triangle_fan (vk_draw_triangle_fan C3st C3q1 false true) C3q2 true false)).cmd_draws
        = (frameOf C3st).cmd_draws ++ [c1, c2] ∧
      c1.pipeline = vk_pipeline_id.flat_3d ∧
      c1.blend = vk_blend_mode.normal ∧
      c2.pipeline = vk_pipeline_id.textured_2d ∧
      c2.blend = vk_blend_mode.normal ∧
      c1.pipeline ≠ c2.pipeline ∧
      (frameOf (vk_draw_triangle_fan C3st C3q1 false true)).vertex_offset
        = (frameOf C3st).vertex_offset + 216 ∧
      (frameOf (vk_draw_triangle_fan (vk_draw_triangle_fan C3st C3q1 false true) C3q2 true false)).vertex_offset
        = (frameOf C3st).vertex_offset + 432 :=
  C3_two_quad_fans C3st C3q1 C3q2 rfl rfl (by decide) (by decide) (by decide) (by decide)

end VkModel
